import Mathlib

/-!
Verification development for the invenio-rdm-migrator action-based
transactional load engine.

The Python sources under `src/invenio_rdm_migrator` are embedded shallowly:

* `streams/actions/load/drafts.py` (`DraftCreateAction`) — the draft-creation
  pipeline `prepare = _generate_pks; _resolve_references; _generate_rows`;
* `actions/base.py` (`LoadAction._generate_pks`) — the generic primary-key
  generation step over `(attribute, path, generator)` rules;
* `load/postgresql/transactions/execute.py` (`PostgreSQLTx`) — the
  transactional executor with savepoint-scoped sub-transactions, dry-run,
  statistics and error escalation;
* `streams/actions/load/files.py` (`FileDeleteAction`,
  `MediaFileDeleteAction`) — the file / media-file delete row generators.

Collaborators of these modules that are not part of the source tree
(the migration state store `state.py`, `load/ids.py`, `utils.dict_set`,
`parents.generate_parent_ops`) are modelled from the specification; each such
definition carries a doc comment beginning `Modelled from the spec:`.
-/

/-- Scalar value stored in the payload dictionaries.  Python's `None`, `str`,
`int` and `bool` are the only scalar shapes the embedded code reads or writes;
nested `json` payloads the code treats as opaque are also carried as a
`Value`. -/
inductive Value where
  | vnone
  | vstr (s : String)
  | vnat (n : Nat)
  | vbool (b : Bool)
deriving DecidableEq, Repr

namespace Value

/-- Python truthiness of a scalar value (`if x:` / `x or y`). -/
def truthy : Value → Bool
  | vnone => false
  | vstr s => s ≠ ""
  | vnat n => n ≠ 0
  | vbool b => b

/-- Python's `x or y` on values: `y` when `x` is falsy. -/
def orElse (a b : Value) : Value := if a.truthy then a else b

end Value

/-- Association-list lookup used by every state sub-ledger (`get` returns an
absent result rather than raising). -/
def alget {β : Type} (l : List (String × β)) (k : String) : Option β :=
  match l with
  | [] => none
  | (k', v) :: rest => if k' = k then some v else alget rest k

/-! ## Draft-creation payload (drafts.py, `RDMDraftCreateData`)

The dataclass fields are dicts; each is embedded as a structure holding
exactly the keys the source reads or writes, with opaque remainders kept as a
`Value`. -/

/-- A PID dict as carried in `draft_pid` / `parent_pid`: the keys read in
`_generate_pid_rows` (drafts.py lines 59-74), with `id` written by the
primary-key step. -/
structure PidDict where
  id : Value := .vnone
  pid_type : String
  pid_value : String
  status : Value
  object_type : Value
  created : Value
deriving DecidableEq, Repr

/-- The `draft` dict: keys read in `_generate_draft_rows`; `json` is split
into the `id` the code reads (`draft["json"]["id"]`) and an opaque rest;
`parent_id` is written during row generation (drafts.py line 97/109). -/
structure DraftDict where
  id : Value := .vnone
  json_id : String
  json_rest : Value
  created : Value
  updated : Value
  version_id : Value
  index : Value
  bucket_id : String
  expires_at : Value
  fork_version_id : Value
  parent_id : Value := .vnone
deriving DecidableEq, Repr

/-- The `parent` dict: `json["id"]` is read as the PARENTS ledger key, `id`
is written by the primary-key step and rebound to the existing parent's id in
cases (a)/(b) (drafts.py line 108). -/
structure ParentDict where
  id : Value := .vnone
  json_id : String
  json_rest : Value
  created : Value
  updated : Value
deriving DecidableEq, Repr

/-- `RDMDraftCreateData` (drafts.py lines 27-35). The `draft_bucket` dict is
never inspected by the action, only yielded verbatim. -/
structure RDMDraftCreateData where
  parent_pid : PidDict
  parent : ParentDict
  draft_pid : PidDict
  draft : DraftDict
  draft_bucket : Value
deriving DecidableEq, Repr

/-! ## Migration state store

Modelled from the spec: `state.py` is not under `src/`.  Spec §3/§4.2: four
sub-ledgers mapping a natural key to a small state record; `add` fails if the
key exists, `update` fails if it is absent, `get` returns an absent result.
Records carry all spec-listed columns, absent ones defaulting to `None`
(`Value.vnone`), so indexing a freshly added parent's `latest_index`
(drafts.py line 171) yields `None` rather than raising. -/

/-- Modelled from the spec: PIDS sub-ledger record —
`{internal id, type, status, owning-object type, created-at}` (spec §3). -/
structure PidStateRec where
  id : Value
  pid_type : String
  status : Value
  obj_type : Value
  created : Value
deriving DecidableEq, Repr

/-- Modelled from the spec: PARENTS sub-ledger record — `{internal id,
next-draft internal id, latest published index, latest published internal
id}` (spec §3); fields not supplied by an `add` are absent (`vnone`). -/
structure ParentStateRec where
  id : Value
  next_draft_id : Value := .vnone
  latest_index : Value := .vnone
  latest_id : Value := .vnone
deriving DecidableEq, Repr

/-- Modelled from the spec: RECORDS sub-ledger record — `{internal id,
parent internal id, version index, fork-version index}` (spec §3). -/
structure RecordStateRec where
  id : Value
  parent_id : Value
  index : Value
  fork_version_id : Value
deriving DecidableEq, Repr

/-- Modelled from the spec: BUCKETS sub-ledger record — `{owning draft
internal id}` (spec §3). -/
structure BucketStateRec where
  draft_id : Value
deriving DecidableEq, Repr

/-- Modelled from the spec: the migration state store (`STATE`), one
association list per sub-ledger (spec §3, §4.2). -/
structure MigState where
  pids : List (String × PidStateRec)
  parents : List (String × ParentStateRec)
  records : List (String × RecordStateRec)
  buckets : List (String × BucketStateRec)
deriving DecidableEq, Repr

/-- Failures surfaced while a load action prepares: ledger `add` conflicts,
ledger `update` on an absent key, and the source's `assert` statements. -/
inductive LoadErr where
  | pidExists
  | bucketExists
  | assertNextDraft
  | assertParentMatch
  | assertPidPresent
  | parentStateMissing
deriving DecidableEq, Repr

/-! ## Operations (`load/postgresql/transactions/operations.py` is absent;
the `Operation(type, model, data)` container is modelled from the spec §4.1:
a tagged value of an operation kind, a target entity type and row data). -/

/-- Operation kind (`OperationType`). -/
inductive OperationType where
  | INSERT
  | UPDATE
  | DELETE
deriving DecidableEq, Repr

/-- Target entity types (the SQLAlchemy model classes named by the embedded
actions). -/
inductive ModelName where
  | PersistentIdentifier
  | FilesBucket
  | FilesInstance
  | FilesObjectVersion
  | RDMParentMetadata
  | RDMDraftMetadata
  | RDMVersionState
  | RDMDraftFile
  | RDMDraftMediaFile
deriving DecidableEq, Repr

/-- Modelled from the spec: `Operation(kind, entity_type, row)` (spec §4.1),
polymorphic in the row payload exactly as the Python container is. -/
structure Operation (α : Type) where
  type : OperationType
  model : ModelName
  data : α
deriving DecidableEq, Repr

/-! ## Row payloads yielded by `DraftCreateAction` -/

/-- The PID confirmation row built at drafts.py lines 128-141. -/
structure PidUpdateRow where
  id : Value
  pid_type : String
  pid_value : String
  status : Value
  object_type : String
  object_uuid : Value
  created : Value
  updated : Value
deriving DecidableEq, Repr

/-- The parent metadata row of the parent-creation row set. -/
structure ParentMetaRow where
  id : Value
  json_id : String
  json_rest : Value
  created : Value
  updated : Value
deriving DecidableEq, Repr

/-- The draft metadata row built at drafts.py lines 146-162. -/
structure DraftMetaRow where
  id : Value
  json_id : String
  json_rest : Value
  created : Value
  updated : Value
  version_id : Value
  index : Value
  bucket_id : String
  parent_id : Value
  expires_at : Value
  fork_version_id : Value
deriving DecidableEq, Repr

/-- The version-state row built at drafts.py lines 167-176. -/
structure VersionStateRow where
  latest_index : Value
  parent_id : Value
  latest_id : Value
  next_draft_id : Value
deriving DecidableEq, Repr

/-- Row payloads of the operations `DraftCreateAction` yields. -/
inductive DraftRowData where
  | pidRow (p : PidDict)
  | pidUpdate (r : PidUpdateRow)
  | bucketRow (b : Value)
  | parentMeta (r : ParentMetaRow)
  | draftMeta (r : DraftMetaRow)
  | versionState (r : VersionStateRow)
deriving DecidableEq, Repr

/-- Modelled from the spec: `generate_parent_ops` (parents.py, not under
`src/`).  Emits the "full parent-creation rows" for a freshly allocated
parent (spec §4.4 case (a)): the parent PID insert and the parent metadata
insert. -/
def generate_parent_ops (parent : ParentDict) (parent_pid : PidDict) :
    List (Operation DraftRowData) :=
  [ ⟨.INSERT, .PersistentIdentifier, .pidRow parent_pid⟩,
    ⟨.INSERT, .RDMParentMetadata,
      .parentMeta ⟨parent.id, parent.json_id, parent.json_rest,
        parent.created, parent.updated⟩⟩ ]

/-! ## `DraftCreateAction` row generation (drafts.py lines 53-176) -/

/-- `DraftCreateAction._generate_pid_rows` (drafts.py lines 59-74): for a
non-`depid` draft PID, add the PID to the PIDS ledger (the add "would raise
an exception if it exists") and yield one `PersistentIdentifier` insert;
for a `depid`, do nothing. -/
def generate_pid_rows (data : RDMDraftCreateData) (st : MigState) :
    Except LoadErr (List (Operation DraftRowData) × MigState) :=
  let pid := data.draft_pid
  if pid.pid_type ≠ "depid" then
    match alget st.pids pid.pid_value with
    | some _ => .error .pidExists
    | none =>
        .ok ([⟨.INSERT, .PersistentIdentifier, .pidRow pid⟩],
          { st with pids :=
              (pid.pid_value,
                ⟨pid.id, pid.pid_type, pid.status, pid.object_type,
                  pid.created⟩) :: st.pids })
  else .ok ([], st)

/-- `DraftCreateAction._generate_bucket_rows` (drafts.py lines 76-78). -/
def generate_bucket_rows (data : RDMDraftCreateData) :
    List (Operation DraftRowData) :=
  [⟨.INSERT, .FilesBucket, .bucketRow data.draft_bucket⟩]

/-- `DraftCreateAction._generate_draft_rows` (drafts.py lines 80-176),
with `datetime.utcnow().isoformat()` supplied as `now`.  Returns the yielded
operations, the updated state store and the mutated action data; Python
`assert` failures and ledger conflicts become errors. -/
def generate_draft_rows (now : Value) (data : RDMDraftCreateData)
    (st : MigState) :
    Except LoadErr
      (List (Operation DraftRowData) × MigState × RDMDraftCreateData) := do
  let draft0 := data.draft
  let parent0 := data.parent
  let forked_published := alget st.records draft0.json_id
  let existing_parent := alget st.parents parent0.json_id
  let draft1 := { draft0 with parent_id := parent0.id }
  let (caseOps, parent1, draft2, st1) ←
    match existing_parent with
    | none =>
        -- case c: new record; add the parent entry and emit parent rows
        .ok (generate_parent_ops parent0 data.parent_pid, parent0, draft1,
          { st with parents :=
              (parent0.json_id,
                ⟨parent0.id, draft1.id, .vnone, .vnone⟩) :: st.parents })
    | some ep =>
        -- cases a and b: reuse the existing parent's internal id
        let parent1 := { parent0 with id := ep.id }
        let draft2 := { draft1 with parent_id := ep.id }
        match forked_published with
        | none =>
            -- case b: it can only happen once
            if ep.next_draft_id.truthy then .error .assertNextDraft
            else
              .ok (([] : List (Operation DraftRowData)), parent1, draft2,
                { st with parents :=
                    st.parents.map (fun kv =>
                      if kv.1 = parent0.json_id then
                        (kv.1, { kv.2 with next_draft_id := draft2.id })
                      else kv) })
        | some fp =>
            -- case a: state parent and an existing record must match
            if parent1.id = fp.parent_id then
              .ok (([] : List (Operation DraftRowData)), parent1, draft2, st)
            else .error .assertParentMatch
  let (pidOps, _) ←
    match forked_published with
    | none =>
        match alget st1.pids draft2.json_id with
        | none => .error .assertPidPresent
        | some dp =>
            .ok ([(⟨.UPDATE, .PersistentIdentifier,
              .pidUpdate ⟨dp.id, dp.pid_type, draft2.json_id, dp.status,
                "rec", draft2.id, dp.created, now⟩⟩ :
                  Operation DraftRowData)], ())
    | some _ => .ok (([] : List (Operation DraftRowData)), ())
  let draft_id :=
    (match forked_published with
     | some fp => fp.id
     | none => Value.vnone).orElse draft2.id
  let st2 ←
    match alget st1.buckets draft2.bucket_id with
    | some _ => .error .bucketExists
    | none =>
        .ok { st1 with buckets :=
          (draft2.bucket_id, ⟨draft_id⟩) :: st1.buckets }
  let draftOp : Operation DraftRowData :=
    ⟨.INSERT, .RDMDraftMetadata,
      .draftMeta ⟨draft_id, draft2.json_id, draft2.json_rest, draft2.created,
        draft2.updated, draft2.version_id,
        ((match forked_published with
          | some fp => fp.index
          | none => Value.vnone).orElse draft2.index),
        draft2.bucket_id, parent1.id, draft2.expires_at,
        ((match forked_published with
          | some fp => fp.fork_version_id
          | none => Value.vnone).orElse draft2.fork_version_id)⟩⟩
  match alget st2.parents parent1.json_id with
  | none => .error .parentStateMissing
  | some p =>
      let version_op :=
        match forked_published with
        | some _ => OperationType.UPDATE
        | none => OperationType.INSERT
      let versionOp : Operation DraftRowData :=
        ⟨version_op, .RDMVersionState,
          .versionState ⟨p.latest_index, p.id, p.latest_id, p.next_draft_id⟩⟩
      .ok (caseOps ++ pidOps ++ [draftOp, versionOp], st2,
        { data with draft := draft2, parent := parent1 })

/-- Values produced by the primary-key generators for the four rules of
`DraftCreateAction.pks` (drafts.py lines 44-51).  Modelled from the spec:
`generate_pk` / `generate_uuid` (load/ids.py, not under `src/`) are opaque
generators, so their outputs are supplied as parameters. -/
structure PkSupply where
  draft_pid_pk : Value
  draft_uuid : Value
  parent_pid_pk : Value
  parent_uuid : Value
deriving DecidableEq, Repr

/-- The primary-key generation step of `DraftCreateAction`: each of the four
rules writes the generated key at key `id` of its attribute
(`LoadAction._generate_pks`, actions/base.py lines 71-82; every attribute is
a present, non-empty dict, so no rule is skipped). -/
def draft_create_pks (g : PkSupply) (d : RDMDraftCreateData) :
    RDMDraftCreateData :=
  { d with
    draft_pid := { d.draft_pid with id := g.draft_pid_pk },
    draft := { d.draft with id := g.draft_uuid },
    parent_pid := { d.parent_pid with id := g.parent_pid_pk },
    parent := { d.parent with id := g.parent_uuid } }

/-- `DraftCreateAction.prepare` (actions/base.py lines 96-105): primary-key
generation, then reference resolution, then row generation.  Modelled from
the spec: `_resolve_references` calls the `CommunitiesReferencesMixin` /
`PIDsReferencesMixin` helpers (references.py, not under `src/`); per spec
§4.4 step 2 these only rewrite denormalized external references inside the
payload's opaque json and yield no operations, so the step is the identity
at this granularity. -/
def draft_create_prepare (g : PkSupply) (now : Value)
    (data : RDMDraftCreateData) (st : MigState) :
    Except LoadErr
      (List (Operation DraftRowData) × MigState × RDMDraftCreateData) := do
  let data := draft_create_pks g data
  let (ops1, st1) ← generate_pid_rows data st
  let ops2 := generate_bucket_rows data
  let (ops3, st2, data') ← generate_draft_rows now data st1
  .ok (ops1 ++ ops2 ++ ops3, st2, data')

/-! ## Concrete example inputs -/

/-- Example draft PID dict with PID value `"abc123"`. -/
def pidEx : PidDict :=
  { pid_type := "recid", pid_value := "abc123", status := .vstr "N",
    object_type := .vstr "rec", created := .vstr "t0" }

/-- Example parent PID dict. -/
def parentPidEx : PidDict :=
  { pid_type := "recid", pid_value := "abc122", status := .vstr "N",
    object_type := .vstr "rec", created := .vstr "t0" }

/-- Example draft dict whose natural key matches `pidEx`. -/
def draftEx : DraftDict :=
  { json_id := "abc123", json_rest := .vstr "J", created := .vstr "t0",
    updated := .vstr "t1", version_id := .vnat 1, index := .vnat 1,
    bucket_id := "b1", expires_at := .vnone, fork_version_id := .vnone }

/-- Example parent dict. -/
def parentEx : ParentDict :=
  { json_id := "abc122", json_rest := .vstr "PJ", created := .vstr "t0",
    updated := .vstr "t1" }

/-- Example parent-less new-record payload with PID value `"abc123"`. -/
def dataEx : RDMDraftCreateData :=
  { parent_pid := parentPidEx, parent := parentEx, draft_pid := pidEx,
    draft := draftEx, draft_bucket := .vstr "B" }

/-- The empty migration state store. -/
def stEmpty : MigState := ⟨[], [], [], []⟩

/-- Example primary-key supply. -/
def gEx : PkSupply := ⟨.vnat 11, .vstr "du", .vnat 12, .vstr "pu"⟩

/-! ## C1 -/

/-- The operation sequence `DraftCreateAction.prepare` actually produces for
a parent-less new record (the claim's sequence amended with the
`PersistentIdentifier` UPDATE row of drafts.py lines 128-141): PID insert,
bucket insert, the parent-creation row set, the PID-update row linking the
draft PID to the draft's internal id, the draft insert with `parent_id`
equal to the newly generated parent id, and the version-state insert with
`next_draft_id` equal to the draft's internal id. -/
def c1AmendedSeq (g : PkSupply) (now : Value) (data : RDMDraftCreateData) :
    List (Operation DraftRowData) :=
  [ ⟨.INSERT, .PersistentIdentifier,
      .pidRow { data.draft_pid with id := g.draft_pid_pk }⟩,
    ⟨.INSERT, .FilesBucket, .bucketRow data.draft_bucket⟩ ] ++
  generate_parent_ops { data.parent with id := g.parent_uuid }
    { data.parent_pid with id := g.parent_pid_pk } ++
  [ ⟨.UPDATE, .PersistentIdentifier,
      .pidUpdate ⟨g.draft_pid_pk, data.draft_pid.pid_type,
        data.draft.json_id, data.draft_pid.status, "rec", g.draft_uuid,
        data.draft_pid.created, now⟩⟩,
    ⟨.INSERT, .RDMDraftMetadata,
      .draftMeta ⟨g.draft_uuid, data.draft.json_id, data.draft.json_rest,
        data.draft.created, data.draft.updated, data.draft.version_id,
        data.draft.index, data.draft.bucket_id, g.parent_uuid,
        data.draft.expires_at, data.draft.fork_version_id⟩⟩,
    ⟨.INSERT, .RDMVersionState,
      .versionState ⟨.vnone, g.parent_uuid, .vnone, g.draft_uuid⟩⟩ ]

/-- C1 counterexample: on the parent-less new-record payload with PID value
`"abc123"` over the empty state store, `prepare()` yields SEVEN operations,
the fifth being an UPDATE on `PersistentIdentifier` (the draft-PID
confirmation row of drafts.py lines 128-141).  The claimed sequence — one
PID insert, one bucket insert, the parent-creation row set (inserts), a
draft insert and a version-state insert, "and no other operations" —
consists solely of inserts and omits this UPDATE, so the claim as stated is
false. -/
theorem drafts_c1_counterexample :
    (draft_create_prepare gEx (.vstr "now") dataEx stEmpty).map
        (fun r => r.1.map (fun o => (o.type, o.model))) =
      .ok [(.INSERT, .PersistentIdentifier), (.INSERT, .FilesBucket),
        (.INSERT, .PersistentIdentifier), (.INSERT, .RDMParentMetadata),
        (.UPDATE, .PersistentIdentifier), (.INSERT, .RDMDraftMetadata),
        (.INSERT, .RDMVersionState)] := by
  rfl

/-- C1 amended: for every draft-creation input that is a parent-less new
record (no existing parent in PARENTS, no forked-published record in
RECORDS, draft PID of a non-`depid` type; with the PID value, bucket id and
draft natural key not yet claimed in the state store and the draft's natural
key equal to its PID value), `prepare()` yields exactly, in order: one PID
insert, one bucket insert, the parent-creation row set, one PID-update row
linking the draft PID to the draft's internal id, a draft insert whose
`parent_id` equals the newly generated parent id, and a version-state
insert whose `next_draft_id` equals the draft's internal id — and no other
operations. -/
theorem drafts_c1_amended (g : PkSupply) (now : Value)
    (data : RDMDraftCreateData) (st : MigState)
    (h1 : alget st.parents data.parent.json_id = none)
    (h2 : alget st.records data.draft.json_id = none)
    (h3 : data.draft_pid.pid_type ≠ "depid")
    (h4 : alget st.pids data.draft_pid.pid_value = none)
    (h5 : data.draft.json_id = data.draft_pid.pid_value)
    (h6 : alget st.buckets data.draft.bucket_id = none) :
    (draft_create_prepare g now data st).map (fun r => r.1) =
      .ok (c1AmendedSeq g now data) := by
  have h2' : alget st.records data.draft_pid.pid_value = none := by
    rw [← h5]; exact h2
  simp [draft_create_prepare, draft_create_pks, generate_pid_rows,
    generate_bucket_rows, generate_draft_rows, c1AmendedSeq,
    generate_parent_ops, h1, h2', h3, h4, h5, h6, alget,
    Value.orElse, Value.truthy, Except.map, Except.bind, bind]

/-- C1 amended, witnessed at the concrete `"abc123"` payload over the empty
state store. -/
theorem drafts_c1_amended_witness :
    alget stEmpty.parents dataEx.parent.json_id = none ∧
    alget stEmpty.records dataEx.draft.json_id = none ∧
    dataEx.draft_pid.pid_type ≠ "depid" ∧
    alget stEmpty.pids dataEx.draft_pid.pid_value = none ∧
    dataEx.draft.json_id = dataEx.draft_pid.pid_value ∧
    alget stEmpty.buckets dataEx.draft.bucket_id = none ∧
    (draft_create_prepare gEx (.vstr "now") dataEx stEmpty).map
        (fun r => r.1) = .ok (c1AmendedSeq gEx (.vstr "now") dataEx) :=
  ⟨by decide, by decide, by decide, by decide, by decide, by decide,
    drafts_c1_amended gEx (.vstr "now") dataEx stEmpty (by decide)
      (by decide) (by decide) (by decide) (by decide) (by decide)⟩

/-! ## C2 -/

/-- State store with a parent entry that already has a pending next-draft. -/
def stC2 : MigState :=
  ⟨[], [("abc122", ⟨.vstr "p0", .vstr "d0", .vnone, .vnone⟩)], [], []⟩

/-- C2: at most one outstanding next-draft per parent.  If the PARENTS
ledger already holds an entry for the draft's parent with a non-empty
(truthy) `next_draft_id`, and no forked-published record exists in RECORDS
for the draft's natural key, then `prepare()` fails the assertion at
drafts.py line 112 (surfaced as `assertNextDraft`) instead of setting a
second next-draft; no operations and no state result. -/
theorem drafts_c2 (g : PkSupply) (now : Value) (data : RDMDraftCreateData)
    (st : MigState) (ep : ParentStateRec)
    (hp : alget st.parents data.parent.json_id = some ep)
    (hnd : ep.next_draft_id.truthy = true)
    (hr : alget st.records data.draft.json_id = none)
    (hpid : data.draft_pid.pid_type = "depid" ∨
      alget st.pids data.draft_pid.pid_value = none) :
    draft_create_prepare g now data st = .error .assertNextDraft := by
  by_cases hd : data.draft_pid.pid_type = "depid"
  · simp [draft_create_prepare, draft_create_pks, generate_pid_rows,
      generate_bucket_rows, generate_draft_rows, hd, hp, hr, hnd,
      Except.bind, bind]
  · rcases hpid with hd' | hn
    · exact absurd hd' hd
    · simp [draft_create_prepare, draft_create_pks, generate_pid_rows,
        generate_bucket_rows, generate_draft_rows, hd, hn, hp, hr, hnd,
        Except.bind, bind]

/-- C2 witnessed: a second draft-creation for parent `"abc122"` (whose state
entry already carries next-draft `"d0"`) fails its assertion. -/
theorem drafts_c2_witness :
    alget stC2.parents dataEx.parent.json_id =
      some ⟨.vstr "p0", .vstr "d0", .vnone, .vnone⟩ ∧
    Value.truthy (.vstr "d0") = true ∧
    alget stC2.records dataEx.draft.json_id = none ∧
    alget stC2.pids dataEx.draft_pid.pid_value = none ∧
    draft_create_prepare gEx (.vstr "now") dataEx stC2 =
      .error .assertNextDraft :=
  ⟨by decide, by decide, by decide, by decide,
    drafts_c2 gEx (.vstr "now") dataEx stC2 ⟨.vstr "p0", .vstr "d0", .vnone, .vnone⟩
      (by decide) (by decide) (by decide) (Or.inr (by decide))⟩

/-! ## C3 -/

/-- Case (a) of spec §4.4 as branched by drafts.py line 98: brand-new record
(no parent entry in PARENTS). -/
def draft_case_new_record (data : RDMDraftCreateData) (st : MigState) : Prop :=
  alget st.parents data.parent.json_id = none

/-- Case (b) of spec §4.4 as branched by drafts.py lines 107-116: new
version of a published record (parent known, no forked-published record). -/
def draft_case_new_version (data : RDMDraftCreateData) (st : MigState) : Prop :=
  (alget st.parents data.parent.json_id).isSome = true ∧
    alget st.records data.draft.json_id = none

/-- Case (c) of spec §4.4 as branched by drafts.py lines 117-119: edit /
re-derivation of a published record's draft (parent known and a
forked-published record exists). -/
def draft_case_edit (data : RDMDraftCreateData) (st : MigState) : Prop :=
  (alget st.parents data.parent.json_id).isSome = true ∧
    (alget st.records data.draft.json_id).isSome = true

/-- On every successful path of `_generate_draft_rows`, the mutated action
data satisfies `parent.id == draft.parent_id` (drafts.py lines 97 and
108-109 keep the two in lockstep in all branches). -/
theorem generate_draft_rows_link (now : Value) (data : RDMDraftCreateData)
    (st : MigState) :
    match generate_draft_rows now data st with
    | .ok (_, _, d') => d'.parent.id = d'.draft.parent_id
    | .error _ => True := by
  simp only [generate_draft_rows, bind, Except.bind]
  split
  case h_2 => trivial
  case h_1 x ops st' d' heq =>
    repeat' split at heq
    all_goals cases heq
    all_goals simp

/-- C3: for every draft-creation input exactly one of the three cases of
spec §4.4 is taken (they partition on the presence of the parent in PARENTS
and of the forked-published record in RECORDS; the natural keys consulted
are untouched by the primary-key step), and whenever `prepare()` completes,
the parent's id equals the draft's `parent_id` in the action's data. -/
theorem drafts_c3 (g : PkSupply) (now : Value) (data : RDMDraftCreateData)
    (st : MigState) :
    ((draft_case_new_record data st ∧ ¬draft_case_new_version data st ∧
        ¬draft_case_edit data st) ∨
     (¬draft_case_new_record data st ∧ draft_case_new_version data st ∧
        ¬draft_case_edit data st) ∨
     (¬draft_case_new_record data st ∧ ¬draft_case_new_version data st ∧
        draft_case_edit data st)) ∧
    (match draft_create_prepare g now data st with
     | .ok (_, _, d') => d'.parent.id = d'.draft.parent_id
     | .error _ => True) := by
  constructor
  · cases hp : alget st.parents data.parent.json_id <;>
      cases hr : alget st.records data.draft.json_id <;>
        simp [draft_case_new_record, draft_case_new_version, draft_case_edit,
          hp, hr]
  · simp only [draft_create_prepare, bind, Except.bind]
    cases hpid : generate_pid_rows (draft_create_pks g data) st with
    | error e => simp
    | ok v =>
      have hlink :=
        generate_draft_rows_link now (draft_create_pks g data) v.2
      cases hdr :
          generate_draft_rows now (draft_create_pks g data) v.2 with
      | error e => simp [hdr]
      | ok w =>
        rw [hdr] at hlink
        simp only at hlink
        simp [hdr]
        exact hlink

/-! ## C10 -/

/-- What `prepare()` produces when the draft PID is a `depid`: the PID step
yields no operation and leaves the PIDS sub-ledger (indeed the whole state)
untouched, and the rest of the draft-creation sequence — the bucket insert
and the draft rows — is still produced, over the unchanged state. -/
def c10DepidBehaviour (g : PkSupply) (now : Value)
    (data : RDMDraftCreateData) (st : MigState) : Prop :=
  generate_pid_rows (draft_create_pks g data) st = .ok ([], st) ∧
  draft_create_prepare g now data st =
    (match generate_draft_rows now (draft_create_pks g data) st with
     | .ok (o, s, d) =>
         .ok (⟨.INSERT, .FilesBucket, .bucketRow data.draft_bucket⟩ :: o,
           s, d)
     | .error e => .error e)

/-- The single PIDS sub-ledger entry `_generate_pid_rows` adds for a
non-`depid` draft PID, keyed by the `pid_value`. -/
def c10PidEntry (g : PkSupply) (data : RDMDraftCreateData) :
    String × PidStateRec :=
  (data.draft_pid.pid_value,
    ⟨g.draft_pid_pk, data.draft_pid.pid_type, data.draft_pid.status,
      data.draft_pid.object_type, data.draft_pid.created⟩)

/-- What `prepare()` produces when the draft PID is not a `depid` (and its
value is not yet in PIDS): the PID step yields exactly one
`PersistentIdentifier` insert and adds exactly the one entry keyed by the
`pid_value` to the PIDS sub-ledger, and the rest of the draft-creation
sequence follows over the so-extended state. -/
def c10OtherBehaviour (g : PkSupply) (now : Value)
    (data : RDMDraftCreateData) (st : MigState) : Prop :=
  generate_pid_rows (draft_create_pks g data) st =
    .ok ([⟨.INSERT, .PersistentIdentifier,
        .pidRow { data.draft_pid with id := g.draft_pid_pk }⟩],
      { st with pids := c10PidEntry g data :: st.pids }) ∧
  draft_create_prepare g now data st =
    (match generate_draft_rows now (draft_create_pks g data)
        { st with pids := c10PidEntry g data :: st.pids } with
     | .ok (o, s, d) =>
         .ok (⟨.INSERT, .PersistentIdentifier,
            .pidRow { data.draft_pid with id := g.draft_pid_pk }⟩ ::
           ⟨.INSERT, .FilesBucket, .bucketRow data.draft_bucket⟩ :: o,
           s, d)
     | .error e => .error e)

/-- C10: for a draft PID of type `depid`, `prepare()` yields no
`PersistentIdentifier` insert from the PID step and adds no PIDS entry,
while the remaining rows of the draft-creation sequence are still produced;
for any other PID type (whose value is not already claimed in PIDS),
exactly one PID insert is yielded and exactly one PIDS entry keyed by the
`pid_value` is added (drafts.py lines 59-74). -/
theorem drafts_c10 (g : PkSupply) (now : Value) (data : RDMDraftCreateData)
    (st : MigState) :
    (data.draft_pid.pid_type = "depid" →
      c10DepidBehaviour g now data st) ∧
    (data.draft_pid.pid_type ≠ "depid" →
      alget st.pids data.draft_pid.pid_value = none →
      c10OtherBehaviour g now data st) := by
  have hpd : (draft_create_pks g data).draft_pid =
      { data.draft_pid with id := g.draft_pid_pk } := rfl
  have hbk : (draft_create_pks g data).draft_bucket = data.draft_bucket := rfl
  constructor
  · intro hd
    have hd' : (draft_create_pks g data).draft_pid.pid_type = "depid" := by
      rw [hpd]; exact hd
    constructor
    · simp [generate_pid_rows, hd']
    · cases hdr : generate_draft_rows now (draft_create_pks g data) st with
      | error e =>
          simp [c10DepidBehaviour, draft_create_prepare, generate_pid_rows,
            generate_bucket_rows, hd', hbk, hdr, Except.bind, bind]
      | ok w =>
          simp [c10DepidBehaviour, draft_create_prepare, generate_pid_rows,
            generate_bucket_rows, hd', hbk, hdr, Except.bind, bind]
  · intro hd hn
    have hd' : ¬(draft_create_pks g data).draft_pid.pid_type = "depid" := by
      rw [hpd]; exact hd
    have hn' : alget st.pids (draft_create_pks g data).draft_pid.pid_value =
        none := by rw [hpd]; exact hn
    constructor
    · simp [generate_pid_rows, c10PidEntry, hpd, hd, hn, hd', hn']
    · cases hdr : generate_draft_rows now (draft_create_pks g data)
          { st with pids := c10PidEntry g data :: st.pids } with
      | error e =>
          simp only [c10PidEntry] at hdr
          simp [c10OtherBehaviour, draft_create_prepare, generate_pid_rows,
            generate_bucket_rows, c10PidEntry, hpd, hbk, hd, hn, hd', hn',
            hdr, Except.bind, bind]
      | ok w =>
          simp only [c10PidEntry] at hdr
          simp [c10OtherBehaviour, draft_create_prepare, generate_pid_rows,
            generate_bucket_rows, c10PidEntry, hpd, hbk, hd, hn, hd', hn',
            hdr, Except.bind, bind]

/-- A `depid`-typed draft PID payload (otherwise identical to `dataEx`). -/
def dataDepEx : RDMDraftCreateData :=
  { dataEx with draft_pid := { pidEx with pid_type := "depid" } }

/-- State in which a previous action in the same transaction group has
already added the recid `"abc123"` to PIDS (the comment at drafts.py line
122). -/
def stDepEx : MigState :=
  ⟨[("abc123", ⟨.vnat 11, "recid", .vstr "N", .vstr "rec", .vstr "t0"⟩)],
    [], [], []⟩

/-- C10 witnessed at a concrete `depid` input (PIDS already holding the
recid from a previous action of the group) and at the concrete non-`depid`
input over the empty store. -/
theorem drafts_c10_witness :
    c10DepidBehaviour gEx (.vstr "now") dataDepEx stDepEx ∧
    (dataEx.draft_pid.pid_type ≠ "depid" ∧
      alget stEmpty.pids dataEx.draft_pid.pid_value = none ∧
      c10OtherBehaviour gEx (.vstr "now") dataEx stEmpty) :=
  ⟨(drafts_c10 gEx (.vstr "now") dataDepEx stDepEx).1 rfl,
    by decide,
    by decide,
    (drafts_c10 gEx (.vstr "now") dataEx stEmpty).2 (by decide) (by decide)⟩

/-! ## Generic primary-key generation (`LoadAction._generate_pks`,
actions/base.py lines 71-82) -/

/-- Nested dictionary data carried in a load action's attribute: either a
scalar or a string-keyed mapping (a Python dict). -/
inductive PData where
  | leaf (v : Value)
  | node (entries : List (String × PData))

/-- Python truthiness of attribute data: a non-empty dict is truthy. -/
def PData.truthy : PData → Bool
  | .leaf v => v.truthy
  | .node es => !es.isEmpty

/-- Association-list write: replace the first binding of `k` or append. -/
def alset {β : Type} (l : List (String × β)) (k : String) (v : β) :
    List (String × β) :=
  match l with
  | [] => [(k, v)]
  | (k', v') :: rest =>
      if k' = k then (k, v) :: rest else (k', v') :: alset rest k v

/-- Modelled from the spec: `dict_set` (utils.py, not under `src/`).  Walks
the path inside the attribute's data and writes the value at the final
segment; a missing or non-dict intermediate segment — the spec's "missing
path" (§4.4 step 1) — is the `KeyError` the caller catches. -/
def dict_set : List String → PData → Value → Except Unit PData
  | [], _, _ => .error ()
  | _ :: _, .leaf _, _ => .error ()
  | [k], .node es, v => .ok (.node (alset es k (.leaf v)))
  | k :: k2 :: rest, .node es, v =>
      match alget es k with
      | none => .error ()
      | some sub =>
          match dict_set (k2 :: rest) sub v with
          | .error e => .error e
          | .ok sub' => .ok (.node (alset es k sub'))

/-- One primary-key assignment rule `(attribute, path, generator)`
(actions/base.py line 72); the generator is an opaque function of the
attribute's data (spec §4.4 step 1). -/
structure PkRule where
  attr : String
  path : List String
  gen : PData → Value

/-- A load action's data payload: attribute lookup (`getattr`), absent for
a missing attribute. -/
abbrev ActionData : Type := String → Option PData

/-- Attribute write on the payload. -/
def dataSet (d : ActionData) (k : String) (v : PData) : ActionData :=
  fun k' => if k' = k then some v else d k'

/-- One iteration of the `for` loop of `LoadAction._generate_pks`
(actions/base.py lines 72-82): fetch the attribute (an `AttributeError` is
caught, logged and skips the rule), and when it is truthy write the
generated key at the rule's path (a `KeyError` is caught, logged and skips
the rule). -/
def apply_pk_rule (r : PkRule) (d : ActionData) : ActionData :=
  match d r.attr with
  | none => d
  | some a =>
      if a.truthy then
        match dict_set r.path a (r.gen a) with
        | .error _ => d
        | .ok a' => dataSet d r.attr a'
      else d

/-- `LoadAction._generate_pks`: the rules applied in order, each failure
caught per rule. -/
def generate_pks (rules : List PkRule) (d : ActionData) : ActionData :=
  rules.foldl (fun acc r => apply_pk_rule r acc) d

/-- Replacing a key twice writes only the second value. -/
theorem alset_alset {β : Type} (l : List (String × β)) (k : String)
    (v w : β) : alset (alset l k v) k w = alset l k w := by
  induction l with
  | nil => simp [alset]
  | cons h t ih =>
      obtain ⟨k', v'⟩ := h
      by_cases hk : k' = k
      · simp [alset, hk]
      · simp [alset, hk, ih]

/-- Looking up a key just written yields the written value. -/
theorem alget_alset_self {β : Type} (l : List (String × β)) (k : String)
    (v : β) : alget (alset l k v) k = some v := by
  induction l with
  | nil => simp [alset, alget]
  | cons h t ih =>
      obtain ⟨k', v'⟩ := h
      by_cases hk : k' = k
      · simp [alset, alget, hk]
      · simp [alset, alget, hk, ih]

/-- A write never produces an empty mapping. -/
theorem alset_isEmpty {β : Type} (l : List (String × β)) (k : String)
    (v : β) : (alset l k v).isEmpty = false := by
  cases l with
  | nil => simp [alset]
  | cons h t =>
      obtain ⟨k', v'⟩ := h
      by_cases hk : k' = k <;> simp [alset, hk]

/-- Writing the same value at the same path again returns the same data. -/
theorem dict_set_ok_set_again : ∀ (p : List String) (a a' : PData)
    (v : Value), dict_set p a v = .ok a' → dict_set p a' v = .ok a' := by
  intro p
  induction p with
  | nil => intro a a' v h; simp [dict_set] at h
  | cons k rest ih =>
      intro a a' v h
      cases a with
      | leaf w => simp [dict_set] at h
      | node es =>
          cases rest with
          | nil =>
              simp only [dict_set, Except.ok.injEq] at h
              subst h
              simp [dict_set, alset_alset, alget_alset_self]
          | cons k2 r2 =>
              simp only [dict_set] at h
              cases hg : alget es k with
              | none => simp [hg] at h
              | some sub =>
                  simp only [hg] at h
                  cases hrec : dict_set (k2 :: r2) sub v with
                  | error e => simp [hrec] at h
                  | ok sub' =>
                      simp only [hrec, Except.ok.injEq] at h
                      subst h
                      simp only [dict_set, alget_alset_self,
                        ih sub sub' v hrec, alset_alset]

/-- A successful `dict_set` always returns a non-empty dict. -/
theorem dict_set_ok_truthy (p : List String) (a a' : PData) (v : Value)
    (h : dict_set p a v = .ok a') : a'.truthy = true := by
  cases p with
  | nil => simp [dict_set] at h
  | cons k rest =>
      cases a with
      | leaf w => simp [dict_set] at h
      | node es =>
          cases rest with
          | nil =>
              simp only [dict_set, Except.ok.injEq] at h
              subst h
              simp [PData.truthy, alset_isEmpty]
          | cons k2 r2 =>
              simp only [dict_set] at h
              cases hg : alget es k with
              | none => simp [hg] at h
              | some sub =>
                  simp only [hg] at h
                  cases hrec : dict_set (k2 :: r2) sub v with
                  | error e => simp [hrec] at h
                  | ok sub' =>
                      simp only [hrec, Except.ok.injEq] at h
                      subst h
                      simp [PData.truthy, alset_isEmpty]

/-- Writing the same attribute twice keeps only the final write. -/
theorem dataSet_idem (d : ActionData) (k : String) (v : PData) :
    dataSet (dataSet d k v) k v = dataSet d k v := by
  funext x
  by_cases hx : x = k <;> simp [dataSet, hx]

/-- Writes to distinct attributes commute. -/
theorem dataSet_comm (d : ActionData) (k1 k2 : String) (v1 v2 : PData)
    (hne : k1 ≠ k2) :
    dataSet (dataSet d k1 v1) k2 v2 = dataSet (dataSet d k2 v2) k1 v1 := by
  funext x
  by_cases hx2 : x = k2
  · by_cases hx1 : x = k1
    · exact absurd (hx1 ▸ hx2) hne
    · simp [dataSet, hx1, hx2, Ne.symm hne]
  · by_cases hx1 : x = k1 <;> simp [dataSet, hx1, hx2, hne]

/-- A rule leaves every other attribute untouched. -/
theorem apply_pk_rule_ne (r : PkRule) (d : ActionData) (k : String)
    (hk : k ≠ r.attr) : apply_pk_rule r d k = d k := by
  simp only [apply_pk_rule]
  cases d r.attr with
  | none => rfl
  | some a =>
      by_cases ht : a.truthy
      · simp only [ht, if_true]
        cases dict_set r.path a (r.gen a) with
        | error e => rfl
        | ok a' => simp [dataSet, hk]
      · simp [ht]

/-- The written value of one rule application, staged out of
`apply_pk_rule` for the commutation arguments. -/
def pk_write (r : PkRule) (x : Option PData) : Option PData :=
  match x with
  | none => none
  | some a =>
      if a.truthy then
        match dict_set r.path a (r.gen a) with
        | .error _ => none
        | .ok a' => some a'
      else none

/-- `apply_pk_rule` in staged form. -/
theorem apply_pk_rule_eq (r : PkRule) (d : ActionData) :
    apply_pk_rule r d =
      match pk_write r (d r.attr) with
      | none => d
      | some a' => dataSet d r.attr a' := by
  simp only [apply_pk_rule, pk_write]
  cases d r.attr with
  | none => rfl
  | some a =>
      by_cases ht : a.truthy
      · simp only [ht, if_true]
        cases dict_set r.path a (r.gen a) <;> rfl
      · simp [ht]

/-- Rules on distinct attributes commute. -/
theorem apply_pk_rule_comm (r r' : PkRule) (d : ActionData)
    (h : r.attr ≠ r'.attr) :
    apply_pk_rule r (apply_pk_rule r' d) =
      apply_pk_rule r' (apply_pk_rule r d) := by
  have h1 : (apply_pk_rule r' d) r.attr = d r.attr :=
    apply_pk_rule_ne r' d r.attr h
  have h2 : (apply_pk_rule r d) r'.attr = d r'.attr :=
    apply_pk_rule_ne r d r'.attr (Ne.symm h)
  rw [apply_pk_rule_eq r (apply_pk_rule r' d),
    apply_pk_rule_eq r' (apply_pk_rule r d), h1, h2,
    apply_pk_rule_eq r' d, apply_pk_rule_eq r d]
  cases pk_write r (d r.attr) with
  | none => cases pk_write r' (d r'.attr) <;> rfl
  | some a' =>
      cases pk_write r' (d r'.attr) with
      | none => rfl
      | some b' => exact dataSet_comm d r'.attr r.attr b' a' (Ne.symm h)

/-- A rule whose generator is insensitive to the key it writes is
idempotent: applying it a second time rewrites the same value. -/
theorem apply_pk_rule_idem (r : PkRule) (d : ActionData)
    (hins : ∀ a v a', dict_set r.path a v = .ok a' → r.gen a' = r.gen a) :
    apply_pk_rule r (apply_pk_rule r d) = apply_pk_rule r d := by
  cases hda : d r.attr with
  | none =>
      have hfix : apply_pk_rule r d = d := by simp [apply_pk_rule, hda]
      rw [hfix]; exact hfix
  | some a =>
      by_cases ht : a.truthy
      · cases hds : dict_set r.path a (r.gen a) with
        | error e =>
            have hfix : apply_pk_rule r d = d := by
              simp [apply_pk_rule, hda, ht, hds]
            rw [hfix]; exact hfix
        | ok a' =>
            have hd1 : apply_pk_rule r d = dataSet d r.attr a' := by
              simp [apply_pk_rule, hda, ht, hds]
            rw [hd1]
            have hget : (dataSet d r.attr a') r.attr = some a' := by
              simp [dataSet]
            have ht' : a'.truthy = true :=
              dict_set_ok_truthy r.path a a' (r.gen a) hds
            have hds' : dict_set r.path a' (r.gen a') = .ok a' := by
              rw [hins a (r.gen a) a' hds]
              exact dict_set_ok_set_again r.path a a' (r.gen a) hds
            simp [apply_pk_rule, hget, ht', hds', dataSet_idem]
      · have hfix : apply_pk_rule r d = d := by simp [apply_pk_rule, hda, ht]
        rw [hfix]; exact hfix

/-- A rule whose attribute no rule of the list touches commutes with the
whole list. -/
theorem apply_gp_comm (r : PkRule) (rs : List PkRule) (d : ActionData)
    (h : ∀ x ∈ rs, r.attr ≠ x.attr) :
    apply_pk_rule r (generate_pks rs d) =
      generate_pks rs (apply_pk_rule r d) := by
  induction rs generalizing d with
  | nil => rfl
  | cons r' rs' ih =>
      have h1 : r.attr ≠ r'.attr := h r' (by simp)
      have h2 : ∀ x ∈ rs', r.attr ≠ x.attr := fun x hx => h x (by simp [hx])
      show apply_pk_rule r (generate_pks rs' (apply_pk_rule r' d)) =
        generate_pks rs' (apply_pk_rule r' (apply_pk_rule r d))
      rw [ih (apply_pk_rule r' d), apply_pk_rule_comm r r' d h1]
      exact h2

/-- C7: primary-key generation is idempotent.  For every rule list with
pairwise-distinct attributes (as every `pks` list in the source has) whose
generators are insensitive to the key they write (spec §4.4 step 1:
"generators should be pure functions of identifying fields"), running
`_generate_pks` a second time over the already-keyed data changes nothing:
every already-set key — indeed the whole payload — is left unchanged. -/
theorem pks_c7 : ∀ (rules : List PkRule) (d : ActionData),
    rules.Pairwise (fun a b => a.attr ≠ b.attr) →
    (∀ r ∈ rules, ∀ a v a',
      dict_set r.path a v = .ok a' → r.gen a' = r.gen a) →
    generate_pks rules (generate_pks rules d) = generate_pks rules d := by
  intro rules
  induction rules with
  | nil => intro d _ _; rfl
  | cons r rs ih =>
      intro d hdist hins
      have hhead : ∀ x ∈ rs, r.attr ≠ x.attr :=
        (List.pairwise_cons.mp hdist).1
      have htail : rs.Pairwise (fun a b => a.attr ≠ b.attr) :=
        (List.pairwise_cons.mp hdist).2
      have hinsr : ∀ a v a', dict_set r.path a v = .ok a' →
          r.gen a' = r.gen a := hins r (by simp)
      have hinsrs : ∀ x ∈ rs, ∀ a v a', dict_set x.path a v = .ok a' →
          x.gen a' = x.gen a := fun x hx => hins x (by simp [hx])
      show generate_pks rs
          (apply_pk_rule r (generate_pks rs (apply_pk_rule r d))) =
        generate_pks rs (apply_pk_rule r d)
      rw [apply_gp_comm r rs (apply_pk_rule r d) hhead,
        apply_pk_rule_idem r d hinsr]
      exact ih (apply_pk_rule r d) htail hinsrs

/-- The four rules of `DraftCreateAction.pks` with concrete (constant, hence
key-insensitive) generators. -/
def pksRulesEx : List PkRule :=
  [⟨"draft_pid", ["id"], fun _ => .vnat 11⟩,
   ⟨"draft", ["id"], fun _ => .vstr "du"⟩,
   ⟨"parent_pid", ["id"], fun _ => .vnat 12⟩,
   ⟨"parent", ["id"], fun _ => .vstr "pu"⟩]

/-- A concrete already-keyable payload for the four rules. -/
def pksDataEx : ActionData := fun k =>
  if k = "draft_pid" then some (.node [("pid_value", .leaf (.vstr "abc123"))])
  else if k = "draft" then some (.node [("json", .leaf (.vstr "j"))])
  else if k = "parent_pid" then
    some (.node [("pid_value", .leaf (.vstr "abc122"))])
  else if k = "parent" then some (.node [("json", .leaf (.vstr "pj"))])
  else none

/-- C7 witnessed on the `DraftCreateAction.pks` rule shape over a concrete
payload. -/
theorem pks_c7_witness :
    generate_pks pksRulesEx (generate_pks pksRulesEx pksDataEx) =
      generate_pks pksRulesEx pksDataEx :=
  pks_c7 pksRulesEx pksDataEx
    (by simp [pksRulesEx, List.pairwise_cons])
    (by
      intro r hr a v a' h
      simp only [pksRulesEx, List.mem_cons, List.mem_singleton,
        List.not_mem_nil, or_false] at hr
      rcases hr with rfl | rfl | rfl | rfl <;> rfl)

/-- C8: a primary-key rule whose attribute is missing from the action's
data (`AttributeError`) or whose path is missing within it (`KeyError`)
never aborts generation: the caught failure skips the rule, leaving the
data unchanged, and the remaining rules are still applied
(actions/base.py lines 72-82). -/
theorem pks_c8 (r : PkRule) (rs : List PkRule) (d : ActionData)
    (h : d r.attr = none ∨
      ∃ a, d r.attr = some a ∧ a.truthy = true ∧
        dict_set r.path a (r.gen a) = .error ()) :
    apply_pk_rule r d = d ∧
      generate_pks (r :: rs) d = generate_pks rs d := by
  have hskip : apply_pk_rule r d = d := by
    rcases h with h | ⟨a, ha, ht, he⟩
    · simp [apply_pk_rule, h]
    · simp [apply_pk_rule, ha, ht, he]
  refine ⟨hskip, ?_⟩
  show generate_pks rs (apply_pk_rule r d) = generate_pks rs d
  rw [hskip]

/-- A rule naming an attribute the payload does not have. -/
def pkRuleMissingAttrEx : PkRule := ⟨"nope", ["id"], fun _ => .vnat 1⟩

/-- A rule whose path walks into a non-existent sub-dict. -/
def pkRuleDeepEx : PkRule := ⟨"draft", ["json", "deep", "id"], fun _ => .vnat 2⟩

/-- C8 witnessed: the missing-attribute rule is skipped and the remaining
rule list still runs. -/
theorem pks_c8_witness :
    pksDataEx pkRuleMissingAttrEx.attr = none ∧
    (apply_pk_rule pkRuleMissingAttrEx pksDataEx = pksDataEx ∧
      generate_pks [pkRuleMissingAttrEx, pkRuleDeepEx] pksDataEx =
        generate_pks [pkRuleDeepEx] pksDataEx) :=
  ⟨rfl, pks_c8 pkRuleMissingAttrEx [pkRuleDeepEx] pksDataEx (Or.inl rfl)⟩

/-! ## Transactional executor (`PostgreSQLTx`, execute.py)

The executor is embedded over an abstract target store `δ` and operation
type `α`, exactly as `_execute_op` treats operations: it hands them to the
session and observes success or an exception (`applyOp` returning `none`).
A savepoint is a snapshot of the store value; rolling back restores it. -/

/-- `LoadStats` (execute.py lines 28-65): transaction and operation
counters (the start time and the derived rates are purely observational). -/
structure LoadStats where
  tx : Nat := 0
  ops : Nat := 0
deriving DecidableEq, Repr

/-- A load action as the executor sees it (execute.py lines 135-185): its
names and owning-transaction coordinates for logging, the operations its
`prepare()` yields, and whether the generator raises after those yields
(covering assertion/reference failures inside `prepare`). -/
structure ActionM (α : Type) where
  name : String
  transformName : String
  txId : Option Nat
  lsn : Option Nat
  dataRepr : String
  ops : List α
  prepFails : Bool
deriving DecidableEq, Repr

/-- Entries of the primary diagnostics sink (`self.logger`). -/
inductive LogEntry (α : Type) where
  | beginTx (transform load : String) (txId lsn : Option Nat)
  | opFailed (transform load : String) (op : α)
  | commitTx (transform load : String) (txId lsn : Option Nat)
  | loadFailed (transform load : String) (dataRepr : String)
  | statsInfo (tx ops : Nat)
  | endTx (transform load : String) (txId lsn : Option Nat)
  | dryWarn
  | runFailed
deriving DecidableEq, Repr

/-- Entries of the failed-transaction sink (`self.tx_logger`). -/
inductive FailedLogEntry where
  | txFailed (transform load : String) (txId lsn : Option Nat)
      (dataRepr : String)
  | runFailed
deriving DecidableEq, Repr

/-- Result of the operation loop of `_process_action` (execute.py lines
146-155 with `_execute_op`, lines 187-213): the store after the executed
prefix, how many operations executed and flushed successfully (each
increments `stats.ops` at line 213), and the failing operation if one
raised. -/
structure ExecOpsResult (δ α : Type) where
  db : δ
  applied : Nat
  failedOp : Option α
deriving Repr

/-- The `for op in action.prepare(...)` loop body: execute each operation
against the store, stopping at the first failure. -/
def execOps {δ α : Type} (applyOp : δ → α → Option δ) :
    δ → List α → ExecOpsResult δ α
  | db, [] => ⟨db, 0, none⟩
  | db, op :: rest =>
      match applyOp db op with
      | none => ⟨db, 0, some op⟩
      | some db' =>
          let r := execOps applyOp db' rest
          ⟨r.db, r.applied + 1, r.failedOp⟩

/-- The state delta of one `_process_action` call: resulting store and
stats, the log entries appended to each sink, and whether the exception was
re-raised (only under `raise_on_db_error`). -/
structure ActionResult (δ α : Type) where
  db : δ
  stats : LoadStats
  logD : List (LogEntry α)
  txlogD : List FailedLogEntry
  raised : Bool
deriving Repr

/-- `PostgreSQLTx._process_action` (execute.py lines 135-185): BEGIN log,
savepoint-scoped sub-transaction, execute-and-flush each yielded operation,
then either commit (COMMIT log, `stats.tx += 1`, END log) or — on any
failure — log the failure with full context to both sinks, roll the
sub-transaction back to the savepoint and re-raise only when
`raise_on_db_error` is set (skipping the END log). -/
def process_action {δ α : Type} (raiseOnErr : Bool)
    (applyOp : δ → α → Option δ) (a : ActionM α) (db : δ)
    (stats : LoadStats) : ActionResult δ α :=
  let lbegin : LogEntry α := .beginTx a.transformName a.name a.txId a.lsn
  let lend : LogEntry α := .endTx a.transformName a.name a.txId a.lsn
  let savepoint := db
  let e := execOps applyOp db a.ops
  let stats1 : LoadStats := { stats with ops := stats.ops + e.applied }
  match e.failedOp with
  | some op =>
      ⟨savepoint, stats1,
        [lbegin, .opFailed a.transformName a.name op,
          .loadFailed a.transformName a.name a.dataRepr] ++
          (if raiseOnErr then [] else [lend]),
        [.txFailed a.transformName a.name a.txId a.lsn a.dataRepr],
        raiseOnErr⟩
  | none =>
      if a.prepFails then
        ⟨savepoint, stats1,
          [lbegin, .loadFailed a.transformName a.name a.dataRepr] ++
            (if raiseOnErr then [] else [lend]),
          [.txFailed a.transformName a.name a.txId a.lsn a.dataRepr],
          raiseOnErr⟩
      else
        ⟨e.db, { stats1 with tx := stats1.tx + 1 },
          [lbegin, .commitTx a.transformName a.name a.txId a.lsn, lend],
          [], false⟩

/-- The final run state of `_load`: store, stats, both sinks' logs, and
whether the run was aborted by a re-raised error. -/
structure LoadResult (δ α : Type) where
  db : δ
  stats : LoadStats
  log : List (LogEntry α)
  txlog : List FailedLogEntry
  raised : Bool
deriving Repr

/-- The `for action in transactions` loop of `_load` (execute.py lines
121-130) together with its `except` clause: after each successful group the
stats are logged; an exception escaping `_process_action` (possible only
under `raise_on_db_error`) is logged to both sinks and re-raised, aborting
the remaining groups. -/
def load_loop {δ α : Type} (raiseOnErr : Bool)
    (applyOp : δ → α → Option δ) :
    List (ActionM α) → δ → LoadStats → LoadResult δ α
  | [], db, stats => ⟨db, stats, [], [], false⟩
  | a :: rest, db, stats =>
      let r := process_action raiseOnErr applyOp a db stats
      if r.raised then
        ⟨r.db, r.stats, r.logD ++ [.runFailed], r.txlogD ++ [.runFailed],
          true⟩
      else
        let rr := load_loop raiseOnErr applyOp rest r.db r.stats
        ⟨rr.db, rr.stats,
          r.logD ++ [.statsInfo r.stats.tx r.stats.ops] ++ rr.log,
          r.txlogD ++ rr.txlog, rr.raised⟩

/-- `PostgreSQLTx._load` (execute.py lines 112-133): in dry mode, warn and
open one outer transaction around the whole run; run the loop; in the
`finally` block — on success, per-group failure and escalation re-raise
alike — roll the outer transaction back, restoring the store to its initial
value; a re-raised error still propagates (`raised`). -/
def load_tx {δ α : Type} (dry raiseOnErr : Bool)
    (applyOp : δ → α → Option δ) (actions : List (ActionM α)) (db0 : δ)
    (stats0 : LoadStats) : LoadResult δ α :=
  let warnLog : List (LogEntry α) := if dry then [.dryWarn] else []
  let r := load_loop raiseOnErr applyOp actions db0 stats0
  { db := if dry then db0 else r.db
    stats := r.stats
    log := warnLog ++ r.log
    txlog := r.txlog
    raised := r.raised }

/-! ## C4 -/

/-- C4: for every run with `dry_run = true` — over any store, any operation
semantics, any action list (including ones with per-group failures or an
escalation re-raise) — the outer transaction opened around the whole run is
rolled back in the `finally` block on every path, so the target store holds
zero net changes after the run, while the transaction/operation counters,
the failure logs and the abort flag are exactly those of the same run
without dry-run. -/
theorem exec_c4 {δ α : Type} (raiseOnErr : Bool)
    (applyOp : δ → α → Option δ) (actions : List (ActionM α)) (db0 : δ)
    (stats0 : LoadStats) :
    (load_tx true raiseOnErr applyOp actions db0 stats0).db = db0 ∧
    (load_tx true raiseOnErr applyOp actions db0 stats0).stats =
      (load_tx false raiseOnErr applyOp actions db0 stats0).stats ∧
    (load_tx true raiseOnErr applyOp actions db0 stats0).txlog =
      (load_tx false raiseOnErr applyOp actions db0 stats0).txlog ∧
    (load_tx true raiseOnErr applyOp actions db0 stats0).raised =
      (load_tx false raiseOnErr applyOp actions db0 stats0).raised ∧
    (load_tx true raiseOnErr applyOp actions db0 stats0).log =
      .dryWarn :: (load_tx false raiseOnErr applyOp actions db0 stats0).log :=
  ⟨rfl, rfl, rfl, rfl, rfl⟩

/-! ## C5 -/

/-- Whether a transaction group fails during apply: one of its operations
is rejected by the target store, or its `prepare()` raises. -/
def actionFails {δ α : Type} (applyOp : δ → α → Option δ)
    (a : ActionM α) (db : δ) : Prop :=
  (execOps applyOp db a.ops).failedOp.isSome = true ∨ a.prepFails = true

/-- Everything C5 asserts about a failing transaction group, relative to
the store `db` holding the earlier groups' committed writes. -/
def c5Behaviour {δ α : Type} (raiseOnErr : Bool)
    (applyOp : δ → α → Option δ) (a : ActionM α)
    (rest : List (ActionM α)) (db : δ) (stats : LoadStats) : Prop :=
  let r := process_action raiseOnErr applyOp a db stats
  -- only this group's sub-transaction is rolled back: the store reverts to
  -- the savepoint taken at group start, keeping earlier groups' writes
  r.db = db ∧
  -- the primary sink receives the failure diagnostic naming the transform
  -- and action and the failing data
  (LogEntry.loadFailed a.transformName a.name a.dataRepr) ∈ r.logD ∧
  -- the failed-transaction sink receives the full context: transform and
  -- action names, transaction id and log position, failing data
  r.txlogD =
    [.txFailed a.transformName a.name a.txId a.lsn a.dataRepr] ∧
  -- the error is re-raised exactly when escalation is requested
  r.raised = raiseOnErr ∧
  -- escalation unset: the run continues with the next groups, from the
  -- rolled-back store and the post-failure stats
  (raiseOnErr = false →
    load_loop false applyOp (a :: rest) db stats =
      let rr := load_loop false applyOp rest db r.stats
      ⟨rr.db, rr.stats,
        r.logD ++ [.statsInfo r.stats.tx r.stats.ops] ++ rr.log,
        r.txlogD ++ rr.txlog, rr.raised⟩) ∧
  -- escalation set: the error is re-raised after the rollback, the
  -- remaining groups never run, and the run is aborted
  (raiseOnErr = true →
    load_loop true applyOp (a :: rest) db stats =
      ⟨db, r.stats, r.logD ++ [.runFailed], r.txlogD ++ [.runFailed],
        true⟩)

/-- C5: a failing transaction group rolls back only its own savepoint-scoped
sub-transaction, records full diagnostic context to the primary and the
failed-transaction sinks, and then the run either continues with the next
group (escalation unset) or re-raises after the rollback and aborts
(escalation set). -/
theorem exec_c5 {δ α : Type} (raiseOnErr : Bool)
    (applyOp : δ → α → Option δ) (a : ActionM α)
    (rest : List (ActionM α)) (db : δ) (stats : LoadStats)
    (hfail : actionFails applyOp a db) :
    c5Behaviour raiseOnErr applyOp a rest db stats := by
  rcases hfail with hop | hprep
  · cases hfo : (execOps applyOp db a.ops).failedOp with
    | none => rw [hfo] at hop; cases hop
    | some op =>
        constructor
        · simp [process_action, hfo]
        refine ⟨?_, ?_, ?_, ?_, ?_⟩
        · simp [process_action, hfo]
        · simp [process_action, hfo]
        · simp [process_action, hfo]
        · intro hr
          subst hr
          simp [load_loop, process_action, hfo]
        · intro hr
          subst hr
          simp [load_loop, process_action, hfo]
  · cases hfo : (execOps applyOp db a.ops).failedOp with
    | some op =>
        constructor
        · simp [process_action, hfo]
        refine ⟨?_, ?_, ?_, ?_, ?_⟩
        · simp [process_action, hfo]
        · simp [process_action, hfo]
        · simp [process_action, hfo]
        · intro hr
          subst hr
          simp [load_loop, process_action, hfo]
        · intro hr
          subst hr
          simp [load_loop, process_action, hfo]
    | none =>
        constructor
        · simp [process_action, hfo, hprep]
        refine ⟨?_, ?_, ?_, ?_, ?_⟩
        · simp [process_action, hfo, hprep]
        · simp [process_action, hfo, hprep]
        · simp [process_action, hfo, hprep]
        · intro hr
          subst hr
          simp [load_loop, process_action, hfo, hprep]
        · intro hr
          subst hr
          simp [load_loop, process_action, hfo, hprep]

/-- Concrete operation semantics for the executor witnesses: the store is
the list of applied operations; operation `0` is rejected by the target
store. -/
def exApplyOp : List Nat → Nat → Option (List Nat) :=
  fun db op => if op = 0 then none else some (op :: db)

/-- A group whose second operation fails (the first executes and flushes). -/
def exFailAction : ActionM Nat :=
  ⟨"create-draft", "tdc", some 1, some 5, "payload", [7, 0], false⟩

/-- A group whose operations all succeed. -/
def exOkAction : ActionM Nat :=
  ⟨"edit-draft", "tde", some 2, some 6, "payload2", [8], false⟩

/-- C5 witnessed: a concrete failing group over a store already holding an
earlier group's write. -/
theorem exec_c5_witness :
    actionFails exApplyOp exFailAction [9] ∧
    c5Behaviour false exApplyOp exFailAction [exOkAction] [9] ⟨1, 1⟩ :=
  ⟨Or.inl (by decide),
    exec_c5 false exApplyOp exFailAction [exOkAction] [9] ⟨1, 1⟩
      (Or.inl (by decide))⟩

/-! ## C6 -/

/-- C6 counterexample: the group `exFailAction` fails on its second
operation and is rolled back (its sub-transaction never commits: the store
reverts to `[]` and the failure is recorded), yet the operation counter has
advanced by 1 — `_execute_op` increments `stats.ops` per successfully
flushed operation (execute.py line 213), not at commit.  The claim that a
failed group contributes to neither counter is therefore false; only the
transaction counter is commit-gated. -/
theorem exec_c6_counterexample :
    (process_action false exApplyOp exFailAction [] ⟨0, 0⟩).db = [] ∧
    (process_action false exApplyOp exFailAction [] ⟨0, 0⟩).txlogD =
      [.txFailed "tdc" "create-draft" (some 1) (some 5) "payload"] ∧
    (process_action false exApplyOp exFailAction [] ⟨0, 0⟩).stats.tx = 0 ∧
    (process_action false exApplyOp exFailAction [] ⟨0, 0⟩).stats.ops = 1 := by
  refine ⟨rfl, rfl, rfl, rfl⟩

/-- C6 amended: the transaction counter is incremented exactly when the
group's sub-transaction commits, while the operation counter is incremented
once per operation that executes and flushes successfully — so a failing
group contributes nothing to the transaction counter but does contribute
its successfully executed prefix of operations to the operation counter. -/
theorem exec_c6_amended {δ α : Type} (raiseOnErr : Bool)
    (applyOp : δ → α → Option δ) (a : ActionM α) (db : δ)
    (stats : LoadStats) :
    (process_action raiseOnErr applyOp a db stats).stats.ops =
      stats.ops + (execOps applyOp db a.ops).applied ∧
    (process_action raiseOnErr applyOp a db stats).stats.tx =
      stats.tx +
        cond ((execOps applyOp db a.ops).failedOp.isNone && !a.prepFails)
          1 0 := by
  cases hfo : (execOps applyOp db a.ops).failedOp with
  | some op => simp [process_action, hfo]
  | none =>
      cases hp : a.prepFails <;>
        simp [process_action, hfo, hp]

/-! ## File / media-file delete actions (files.py) -/

/-- The `bucket` dict of a file-delete payload: the keys the delete actions
read (`id`, `updated`), plus an opaque rest. -/
structure FBucketDict where
  id : Value
  updated : Value
  rest : Value
deriving DecidableEq, Repr

/-- The `deleted_object_version` dict: `is_head` is overwritten to `False`
before the update row is yielded (files.py lines 112, 257). -/
structure OVDict where
  version_id : Value
  key : String
  is_head : Bool
  rest : Value
deriving DecidableEq, Repr

/-- The delete-marker object-version dict built at files.py lines 116-123
and 261-268. -/
structure MarkerDict where
  version_id : Value
  bucket_id : Value
  key : String
  created : Value
  updated : Value
  is_head : Bool
deriving DecidableEq, Repr

/-- A row of the draft-files / draft-media-files tables as the delete
queries read it (`id`, `object_version_id`, `key`). -/
structure FileRecRow where
  id : Value
  object_version_id : Value
  key : String
deriving DecidableEq, Repr

/-- The target-store tables the delete queries touch: `rdm_drafts_files`
(`RDMDraftFile`) and `rdm_drafts_media_files` (`RDMDraftMediaFile`). -/
structure FilesSession where
  draft_files : List FileRecRow
  draft_media_files : List FileRecRow
deriving DecidableEq, Repr

/-- Row payloads of the operations the delete actions yield. -/
inductive FileRowData where
  | bucketRow (b : FBucketDict)
  | ovRow (o : OVDict)
  | markerRow (m : MarkerDict)
  | deleteById (id : Value)
deriving DecidableEq, Repr

/-- `FileDeleteData` / `MediaFileDeleteData` (files.py lines 87-93 and
230-236): both carry the same three fields. -/
structure FileDeleteData where
  bucket : FBucketDict
  deleted_object_version : OVDict
  delete_marker_object_version : Option MarkerDict
deriving DecidableEq, Repr

/-- Failure of a point query (`one_or_none` raises on multiple rows). -/
inductive QueryErr where
  | multipleResults
deriving DecidableEq, Repr

/-- `Result.one_or_none`: absent for no row, the row if unique, an error on
several rows. -/
def one_or_none {β : Type} (l : List β) : Except QueryErr (Option β) :=
  match l with
  | [] => .ok none
  | [r] => .ok (some r)
  | _ => .error .multipleResults

/-- The rows produced by the query at files.py lines 127-132:
`select(RDMDraftFile).where(RDMDraftFile.object_version_id == v,
RDMDraftFile.key == k)` — a plain filter of the draft-files table. -/
def select_draft_file (s : FilesSession) (v : Value) (k : String) :
    List FileRecRow :=
  s.draft_files.filter (fun r => r.object_version_id == v && r.key == k)

/-- The rows produced by the query at files.py lines 272-277:
`select(RDMDraftFile).where(RDMDraftMediaFile.object_version_id == v,
RDMDraftMediaFile.key == k)`.  The select entity is `RDMDraftFile` while
both where-clauses reference `RDMDraftMediaFile`, so SQL places both tables
in the FROM clause and evaluates a cross join: one `RDMDraftFile` row per
(draft-file row, matching media-file row) pair. -/
def select_media_delete (s : FilesSession) (v : Value) (k : String) :
    List FileRecRow :=
  s.draft_files.flatMap (fun df =>
    (s.draft_media_files.filter
      (fun r => r.object_version_id == v && r.key == k)).map (fun _ => df))

/-- `FileDeleteAction._generate_rows` (files.py lines 103-134), with the
`generate_uuid()` of the delete marker supplied as `newUuid` (load/ids.py
is not under `src/`): bucket update, soft-delete update of the old object
version, a delete-marker insert when none was supplied, and — when the
point query finds the owning draft-file record — its deletion by id. -/
def file_delete_rows (newUuid : Value) (data : FileDeleteData)
    (s : FilesSession) : Except QueryErr (List (Operation FileRowData)) := do
  let bucket := data.bucket
  let deleted_ov := { data.deleted_object_version with is_head := false }
  let ops1 : List (Operation FileRowData) :=
    [⟨.UPDATE, .FilesBucket, .bucketRow bucket⟩,
      ⟨.UPDATE, .FilesObjectVersion, .ovRow deleted_ov⟩]
  let ops2 : List (Operation FileRowData) :=
    match data.delete_marker_object_version with
    | some _ => []
    | none =>
        [⟨.INSERT, .FilesObjectVersion,
          .markerRow ⟨newUuid, bucket.id, deleted_ov.key, bucket.updated,
            bucket.updated, true⟩⟩]
  let fr ← one_or_none
    (select_draft_file s deleted_ov.version_id deleted_ov.key)
  let ops3 : List (Operation FileRowData) :=
    match fr with
    | some r => [⟨.DELETE, .RDMDraftFile, .deleteById r.id⟩]
    | none => []
  .ok (ops1 ++ ops2 ++ ops3)

/-- `MediaFileDeleteAction._generate_rows` (files.py lines 246-283): same
shape as the plain delete, except that the final deletion targets
`RDMDraftMediaFile` and the locating query is the cross join of
`select_media_delete` (the select entity stayed `RDMDraftFile`). -/
def media_file_delete_rows (newUuid : Value) (data : FileDeleteData)
    (s : FilesSession) : Except QueryErr (List (Operation FileRowData)) := do
  let bucket := data.bucket
  let deleted_ov := { data.deleted_object_version with is_head := false }
  let ops1 : List (Operation FileRowData) :=
    [⟨.UPDATE, .FilesBucket, .bucketRow bucket⟩,
      ⟨.UPDATE, .FilesObjectVersion, .ovRow deleted_ov⟩]
  let ops2 : List (Operation FileRowData) :=
    match data.delete_marker_object_version with
    | some _ => []
    | none =>
        [⟨.INSERT, .FilesObjectVersion,
          .markerRow ⟨newUuid, bucket.id, deleted_ov.key, bucket.updated,
            bucket.updated, true⟩⟩]
  let fr ← one_or_none
    (select_media_delete s deleted_ov.version_id deleted_ov.key)
  let ops3 : List (Operation FileRowData) :=
    match fr with
    | some r => [⟨.DELETE, .RDMDraftMediaFile, .deleteById r.id⟩]
    | none => []
  .ok (ops1 ++ ops2 ++ ops3)

/-- The claim's table substitution: the draft-files table is replaced by
its media counterpart; every other entity is its own counterpart. -/
def swapFileModel : ModelName → ModelName
  | .RDMDraftFile => .RDMDraftMediaFile
  | .RDMDraftMediaFile => .RDMDraftFile
  | m => m

/-- The table substitution lifted to an operation. -/
def swapFileOp (op : Operation FileRowData) : Operation FileRowData :=
  { op with model := swapFileModel op.model }

/-- The table substitution on the session: the two file tables swap roles. -/
def swapFileSession (s : FilesSession) : FilesSession :=
  ⟨s.draft_media_files, s.draft_files⟩

/-- Failing input for C9: the media-file table holds exactly the record
(id 7) owning the deleted object version; the plain draft-files table is
empty; a delete marker is supplied. -/
def fsEx : FilesSession := ⟨[], [⟨.vnat 7, .vnat 1, "k"⟩]⟩

/-- The media-file delete payload for the failing input. -/
def fdDataEx : FileDeleteData :=
  ⟨⟨.vnat 3, .vstr "t1", .vnone⟩, ⟨.vnat 1, "k", true, .vnone⟩,
    some ⟨.vnat 99, .vnat 3, "k", .vstr "t1", .vstr "t1", true⟩⟩

/-- C9, evaluated at the failing input: the media-file delete action yields
only the bucket and object-version updates and NO deletion — its locating
query `select(RDMDraftFile).where(RDMDraftMediaFile...)` cross-joins the
empty draft-files table, finding nothing — whereas the plain file delete
action transported to the media tables (the claim's substitution) locates
media-file record 7 and yields its deletion.  The two sequences differ, so
the media variant is NOT the plain variant on the parallel table set; the
where-clauses and the DELETE target show the media-file table was the
intent, making the `select(RDMDraftFile)` entity a slip. -/
theorem files_c9_bug :
    media_file_delete_rows (.vnat 50) fdDataEx fsEx =
      .ok [⟨.UPDATE, .FilesBucket, .bucketRow ⟨.vnat 3, .vstr "t1", .vnone⟩⟩,
        ⟨.UPDATE, .FilesObjectVersion,
          .ovRow ⟨.vnat 1, "k", false, .vnone⟩⟩] ∧
    Except.map (List.map swapFileOp)
        (file_delete_rows (.vnat 50) fdDataEx (swapFileSession fsEx)) =
      .ok [⟨.UPDATE, .FilesBucket, .bucketRow ⟨.vnat 3, .vstr "t1", .vnone⟩⟩,
        ⟨.UPDATE, .FilesObjectVersion,
          .ovRow ⟨.vnat 1, "k", false, .vnone⟩⟩,
        ⟨.DELETE, .RDMDraftMediaFile, .deleteById (.vnat 7)⟩] := by
  refine ⟨rfl, rfl⟩
